import Mathlib

/-!
Verification development for the repository-ingestion execution orchestrator
of DEFRA/ai-sdlc-repo-ingest-api.

The JavaScript source is shallowly embedded as executable Lean definitions:

* The WHATWG URL constructor (used by isValidGitHubUrl via new URL) is
  modelled by parseURL: scheme, then the literal separator, then an
  authority up to the first slash (port after a colon stripped from the
  hostname), then the pathname (defaulting to a single slash).  As in
  WHATWG parsing, the hostname is lowercased only for special-scheme
  URLs (http, https, ws, wss, ftp, file); a non-special scheme such as
  git: carries an opaque, case-preserved host.
* isValidGitHubUrl, createRepomixConfig and the option overlay of
  executeRepomix are direct transcriptions of
  src/api/repo-ingest/helpers/execute-repomix.js.
* The effectful body of executeRepomix is embedded as a function of an
  explicit environment (Env) resolving every external outcome: the two
  random identifiers, success of each filesystem operation, the external
  process behaviour, and the state of the output artifact after the
  process ran.  The function returns the result together with the ordered
  trace of completed pipeline stages, the list of filesystem writes
  performed, whether a process was spawned or killed, and the final
  content of the configuration document.
-/

namespace RepoIngest

/-- Lowercase a list of characters, as the WHATWG URL parser normalises
hostnames and schemes. -/
def lowerChars (l : List Char) : List Char := l.map Char.toLower

/-- Characters allowed in a URL scheme after the first (WHATWG). -/
def schemeCharOk (c : Char) : Bool :=
  c.isAlpha || c.isDigit || c = '+' || c = '-' || c = '.'

/-- Result of parsing a URL: the normalised scheme, the authority host as
written (before case normalisation), and the pathname. -/
structure ParsedURL where
  scheme : String
  hostRaw : String
  pathname : String
deriving DecidableEq, Repr

/-- The special schemes of the WHATWG URL standard, whose hosts are
domains and are lowercased during parsing; every other scheme has an
opaque, case-preserved host. -/
def isSpecialScheme (s : String) : Bool :=
  [("ftp" : String), "file", "http", "https", "ws", "wss"].contains s

/-- The hostname getter of the WHATWG URL class: the host, lowercased
for special-scheme URLs and case-preserved otherwise. -/
def ParsedURL.hostname (p : ParsedURL) : String :=
  if isSpecialScheme p.scheme then ⟨lowerChars p.hostRaw.data⟩ else p.hostRaw

/-- Model of the WHATWG URL constructor (new URL in Node) on the fragment
of URLs relevant here: a scheme starting with a letter, the literal
separator of a colon and two slashes, a non-empty host (with an optional
port, which the hostname getter strips), and a pathname starting at the
first slash (a missing pathname reads as a single slash).  Returns none
where the constructor would throw. -/
def parseURLChars (l : List Char) : Option ParsedURL :=
  let schemeChars := l.takeWhile schemeCharOk
  let rest := l.dropWhile schemeCharOk
  match schemeChars, rest with
  | c :: cs, ':' :: '/' :: '/' :: rest2 =>
    if c.isAlpha then
      let hostPort := rest2.takeWhile (fun ch => ch ≠ '/')
      let pathChars := rest2.dropWhile (fun ch => ch ≠ '/')
      let host := hostPort.takeWhile (fun ch => ch ≠ ':')
      if host.isEmpty then none
      else
        some { scheme := ⟨lowerChars (c :: cs)⟩
               hostRaw := ⟨host⟩
               pathname := ⟨if pathChars.isEmpty then ['/'] else pathChars⟩ }
    else none
  | _, _ => none

/-- Model of the WHATWG URL constructor on strings. -/
def parseURL (s : String) : Option ParsedURL := parseURLChars s.data

/-- Split a character list at every occurrence of a separator character,
keeping empty pieces, as the JavaScript string split method does. -/
def splitOnChar (c : Char) : List Char → List (List Char)
  | [] => [[]]
  | x :: xs =>
    match splitOnChar c xs with
    | [] => [[]]
    | g :: gs => if x = c then [] :: g :: gs else (x :: g) :: gs

/-- Transcription of isValidGitHubUrl from execute-repomix.js: parse the
URL (false, not an exception, if parsing fails), require the hostname to
be github.com or www.github.com, and require the pathname split on
slashes, empty segments dropped, to have at least two segments. -/
def isValidGitHubUrl (url : String) : Bool :=
  match parseURL url with
  | none => false
  | some parsedUrl =>
    if ([("github.com" : String), "www.github.com"].contains
        parsedUrl.hostname) = false then
      false
    else
      let pathParts :=
        (splitOnChar '/' parsedUrl.pathname.data).filter
          (fun p => p.isEmpty = false)
      decide (pathParts.length ≥ 2)

/-- The validator's acceptance condition as the specification words it:
the string parses as a URL, the host as written matches github.com or
www.github.com by exact case-insensitive comparison, and the path after
dropping empty segments has at least two segments.  This lowercases the
host for every scheme, which parsing does not. -/
def specValidGitHubUrl (url : String) : Prop :=
  ∃ p : ParsedURL, parseURL url = some p ∧
    (lowerChars p.hostRaw.data = "github.com".data ∨
     lowerChars p.hostRaw.data = "www.github.com".data) ∧
    2 ≤ ((splitOnChar '/' p.pathname.data).filter
          (fun seg => seg.isEmpty = false)).length

/-- The validator's acceptance condition over the parser-normalised
hostname: the string parses as a URL whose hostname (lowercased during
parsing for special-scheme URLs only) equals github.com or
www.github.com exactly, with at least two non-empty path segments. -/
def specValidGitHubUrlNormalized (url : String) : Prop :=
  ∃ p : ParsedURL, parseURL url = some p ∧
    (p.hostname = "github.com" ∨ p.hostname = "www.github.com") ∧
    2 ≤ ((splitOnChar '/' p.pathname.data).filter
          (fun seg => seg.isEmpty = false)).length

/-- The output section of the repomix configuration document built by
createRepomixConfig. -/
structure OutputConfig where
  filePath : String
  style : String
  parsableStyle : Bool
  compress : Bool
  fileSummary : Bool
  directoryStructure : Bool
  removeComments : Bool
  removeEmptyLines : Bool
  showLineNumbers : Bool
  copyToClipboard : Bool
  includeEmptyDirectories : Bool
deriving DecidableEq, Repr

/-- The ignore section of the repomix configuration document. -/
structure IgnoreConfig where
  useGitignore : Bool
  useDefaultPatterns : Bool
  customPatterns : List String
deriving DecidableEq, Repr

/-- The security section of the repomix configuration document. -/
structure SecurityConfig where
  enableSecurityCheck : Bool
deriving DecidableEq, Repr

/-- The repomix configuration document written by createRepomixConfig and
read back by the option overlay in executeRepomix. -/
structure RepomixConfig where
  output : OutputConfig
  includePatterns : List String
  ignore : IgnoreConfig
  security : SecurityConfig
deriving DecidableEq, Repr

/-- The configuration object literal of createRepomixConfig in
execute-repomix.js (the include key is rendered here as includePatterns).
The repositoryUrl parameter of the source function is unused by the
literal, exactly as in the source. -/
def createRepomixConfigDoc (outputFile : String) : RepomixConfig :=
  { output :=
      { filePath := outputFile
        style := "plain"
        parsableStyle := false
        compress := false
        fileSummary := true
        directoryStructure := true
        removeComments := false
        removeEmptyLines := false
        showLineNumbers := true
        copyToClipboard := false
        includeEmptyDirectories := false }
    includePatterns := ["**/*"]
    ignore :=
      { useGitignore := true
        useDefaultPatterns := true
        customPatterns := [] }
    security := { enableSecurityCheck := false } }

/-- The options object accepted by executeRepomix.  Each field is none
when the corresponding key is absent from the JavaScript object.  The
includePatterns field models the include key that repoFilesController
passes (part of the options object, hence counted by the keys check). -/
structure RepomixOptions where
  compress : Option Bool
  removeComments : Option Bool
  removeEmptyLines : Option Bool
  includePatterns : Option String
deriving DecidableEq, Repr

/-- An options object with no keys at all. -/
def emptyOptions : RepomixOptions :=
  { compress := none, removeComments := none, removeEmptyLines := none
    includePatterns := none }

/-- The keys check of executeRepomix: Object.keys(options).length > 0. -/
def RepomixOptions.hasAnyKey (o : RepomixOptions) : Bool :=
  o.compress.isSome || o.removeComments.isSome ||
  o.removeEmptyLines.isSome || o.includePatterns.isSome

/-- The option overlay of executeRepomix (the body guarded by the keys
check): each of the three transform options replaces the corresponding
output field when the key is defined; no other key of the options object
is consulted. -/
def applyOptions (config : RepomixConfig) (options : RepomixOptions) :
    RepomixConfig :=
  if options.hasAnyKey then
    { config with
      output :=
        { config.output with
          compress := options.compress.getD config.output.compress
          removeComments :=
            options.removeComments.getD config.output.removeComments
          removeEmptyLines :=
            options.removeEmptyLines.getD config.output.removeEmptyLines } }
  else config

/-- The options object built by repoFilesController in the repo-files
route before calling executeRepomix: the three transform options pinned
to false and the caller's comma-delimited path list passed under the
include key. -/
def repoFilesOptions (filePaths : String) : RepomixOptions :=
  { compress := some false
    removeComments := some false
    removeEmptyLines := some false
    includePatterns := some filePaths }

/-- Behaviour of the spawned external process, resolved by the
environment: the spawn itself fails (the error event), the process closes
after the given number of milliseconds with an exit code and accumulated
standard-error text, or the process never closes. -/
inductive ProcOutcome where
  | spawnFails (msg : String)
  | finishes (timeMs : Nat) (exitCode : Int) (stderrText : String)
  | neverFinishes
deriving DecidableEq, Repr

/-- Environment resolving every effectful outcome of one executeRepomix
call: the two random identifiers, success of each filesystem operation
(with the message the failing operation would report), the process
behaviour, and the state of the output artifact after the process ran
(none when stat would fail because the file is gone; otherwise its
content, whose length is zero exactly when its byte size is zero). -/
structure Env where
  outputUuid : String
  configUuid : String
  mkdirOutputOk : Bool
  writeEmptyOk : Bool
  accessOk : Bool
  mkdirConfigOk : Bool
  writeConfigOk : Bool
  rewriteConfigOk : Bool
  prepareErrMsg : String
  configErrMsg : String
  statErrMsg : String
  proc : ProcOutcome
  outputContent : Option String
deriving DecidableEq, Repr

/-- The distinct failure exits of executeRepomix, one constructor per
throw site in the source. -/
inductive RepoError where
  | invalidUrl
  | prepareOutputFailure (msg : String)
  | configWriteFailure (msg : String)
  | spawnFailure (msg : String)
  | processExit (exitCode : Int) (stderrText : String)
  | processTimeout
  | outputMissing (msg : String)
  | emptyOutput
deriving DecidableEq, Repr

/-- The message of the Error object each throw site constructs. -/
def RepoError.message : RepoError → String
  | .invalidUrl => "Invalid GitHub repository URL"
  | .prepareOutputFailure m => "Cannot prepare output path: " ++ m
  | .configWriteFailure m => m
  | .spawnFailure m => "Failed to execute repomix: " ++ m
  | .processExit code st =>
      "Repomix exited with code " ++ toString code ++ ": " ++ st
  | .processTimeout => "Repomix process timed out after 5 minutes"
  | .outputMissing m => "Output file issue: " ++ m
  | .emptyOutput =>
      "Output file issue: " ++ "Repomix generated an empty output file"

/-- Caller-visible classification, from repoIngestController: a Boom
error (only the invalid-URL rejection, a bad-request) is rethrown as is;
every other error is wrapped as an opaque internal error. -/
inductive ErrorClass where
  | badRequest
  | internalError
deriving DecidableEq, Repr

/-- Classify an error as the controller does. -/
def classify : RepoError → ErrorClass
  | .invalidUrl => .badRequest
  | _ => .internalError

/-- The error taxonomy of the specification, for relating each concrete
failure exit to its specified class. -/
inductive ErrKind where
  | invalidReference
  | scratchIOFailure
  | processFailure
  | processTimeout
  | emptyResult
deriving DecidableEq, Repr

/-- Modelled from the spec: the taxonomy of section 7 assigns each
failure exit of the orchestrator to one of the five specified classes. -/
def errorKind : RepoError → ErrKind
  | .invalidUrl => .invalidReference
  | .prepareOutputFailure _ => .scratchIOFailure
  | .configWriteFailure _ => .scratchIOFailure
  | .spawnFailure _ => .processFailure
  | .processExit _ _ => .processFailure
  | .processTimeout => .processTimeout
  | .outputMissing _ => .scratchIOFailure
  | .emptyOutput => .emptyResult

/-- The value executeRepomix resolves with on success. -/
structure IngestionResult where
  outputPath : String
  content : String
deriving DecidableEq, Repr

/-- Completed pipeline stages, in the order the source completes them. -/
inductive Stage where
  | validate
  | prepareOutputFile
  | synthesizeConfig
  | spawnProcess
  | materializeResult
deriving DecidableEq, Repr

/-- Filesystem writes executeRepomix performs. -/
inductive FsWrite where
  | mkdirDir (path : String)
  | createFile (path : String)
  | writeFile (path : String)
deriving DecidableEq, Repr

/-- Everything observable about one executeRepomix call. -/
structure ExecOutcome where
  result : Except RepoError IngestionResult
  trace : List Stage
  fsWrites : List FsWrite
  spawned : Bool
  killed : Bool
  finalConfig : Option RepomixConfig
deriving Repr

/-- The fixed process timeout: five minutes in milliseconds. -/
def repomixTimeoutMs : Nat := 5 * 60 * 1000

/-- Scratch directory for output artifacts. -/
def repomixOutputDir : String := "/tmp/repomix-output"

/-- Scratch directory for configuration documents. -/
def repomixConfigDir : String := "/tmp/repomix-config"

/-- The generated output destination, from path.join in the source. -/
def outputFileFor (uuid : String) : String :=
  repomixOutputDir ++ "/" ++ ("repomix-output-" ++ uuid ++ ".txt")

/-- The generated configuration document path, from path.join in
createRepomixConfig. -/
def configFileFor (uuid : String) : String :=
  repomixConfigDir ++ "/" ++ ("repomix-config-" ++ uuid ++ ".json")

/-- Output-destination preparation phase of executeRepomix (the first
try block): mkdir on the output scratch directory, creation of the empty
output file, then the writability check, each failing according to the
environment; returns the error the catch would wrap, if any, together
with the filesystem writes performed. -/
def prepareOutput (env : Env) : Option RepoError × List FsWrite :=
  if env.mkdirOutputOk = false then
    (some (.prepareOutputFailure env.prepareErrMsg), [])
  else if env.writeEmptyOk = false then
    (some (.prepareOutputFailure env.prepareErrMsg),
     [.mkdirDir repomixOutputDir])
  else if env.accessOk = false then
    (some (.prepareOutputFailure env.prepareErrMsg),
     [.mkdirDir repomixOutputDir, .createFile (outputFileFor env.outputUuid)])
  else
    (none,
     [.mkdirDir repomixOutputDir, .createFile (outputFileFor env.outputUuid)])

/-- Configuration synthesis phase of executeRepomix: createRepomixConfig
(mkdir on the config scratch directory, then the write of the document
built by createRepomixConfigDoc), followed by the option overlay guarded
by the keys check, which reads the document back, applies the three
transform options, and rewrites it.  Returns the error, if any, the
writes performed, and the last document content written. -/
def synthesizePhase (options : RepomixOptions) (env : Env) :
    Option RepoError × List FsWrite × Option RepomixConfig :=
  let configFile := configFileFor env.configUuid
  let base := createRepomixConfigDoc (outputFileFor env.outputUuid)
  if env.mkdirConfigOk = false then
    (some (.configWriteFailure env.configErrMsg), [], none)
  else if env.writeConfigOk = false then
    (some (.configWriteFailure env.configErrMsg),
     [.mkdirDir repomixConfigDir], none)
  else if options.hasAnyKey && !env.rewriteConfigOk then
    (some (.configWriteFailure env.configErrMsg),
     [.mkdirDir repomixConfigDir, .writeFile configFile], some base)
  else if options.hasAnyKey then
    (none,
     [.mkdirDir repomixConfigDir, .writeFile configFile,
      .writeFile configFile],
     some (applyOptions base options))
  else
    (none, [.mkdirDir repomixConfigDir, .writeFile configFile], some base)

/-- Process phase of executeRepomix (the spawn promise): the error event
rejects; otherwise the close event resolves or rejects by exit code,
unless the five-minute timer fires first, which kills the process and
rejects.  Returns the rejection, if any, and whether the process was
killed. -/
def runProcess (env : Env) : Option RepoError × Bool :=
  match env.proc with
  | .spawnFails msg => (some (.spawnFailure msg), false)
  | .neverFinishes => (some .processTimeout, true)
  | .finishes timeMs exitCode stderrText =>
    if repomixTimeoutMs < timeMs then (some .processTimeout, true)
    else if exitCode ≠ 0 then
      (some (.processExit exitCode stderrText), false)
    else (none, false)

/-- Materialization phase of executeRepomix: stat the output artifact
(the stat error is wrapped when the file is missing), reject an artifact
of size zero, then read the content and resolve with it together with
the output path. -/
def materializePhase (env : Env) (outputFile : String) :
    Except RepoError IngestionResult :=
  match env.outputContent with
  | none => .error (.outputMissing env.statErrMsg)
  | some content =>
    if content.length = 0 then .error .emptyOutput
    else .ok { outputPath := outputFile, content := content }

/-- Shallow embedding of executeRepomix from execute-repomix.js, stepped
over an explicit environment.  The control flow follows the source:
validate the URL and throw a Boom bad-request on failure; prepare the
output destination; synthesize and, when options are present, rewrite
the configuration document; spawn the external process and wait, bounded
by the five-minute timer; then materialize the result from the output
artifact.  Each later phase runs only when every earlier phase
succeeded, and the outcome records the result, the ordered trace of
completed stages, the filesystem writes, whether a process was spawned
and whether it was killed, and the final configuration content. -/
def executeRepomix (repositoryUrl : String) (options : RepomixOptions)
    (env : Env) : ExecOutcome :=
  if isValidGitHubUrl repositoryUrl = false then
    { result := .error .invalidUrl, trace := [], fsWrites := []
      spawned := false, killed := false, finalConfig := none }
  else
    match prepareOutput env with
    | (some e, ws) =>
      { result := .error e, trace := [.validate], fsWrites := ws
        spawned := false, killed := false, finalConfig := none }
    | (none, ws) =>
      match synthesizePhase options env with
      | (some e, ws2, cfg) =>
        { result := .error e, trace := [.validate, .prepareOutputFile]
          fsWrites := ws ++ ws2, spawned := false, killed := false
          finalConfig := cfg }
      | (none, ws2, cfg) =>
        match runProcess env with
        | (some e, k) =>
          { result := .error e
            trace := [.validate, .prepareOutputFile, .synthesizeConfig,
                      .spawnProcess]
            fsWrites := ws ++ ws2, spawned := true, killed := k
            finalConfig := cfg }
        | (none, _) =>
          match materializePhase env (outputFileFor env.outputUuid) with
          | .error e =>
            { result := .error e
              trace := [.validate, .prepareOutputFile, .synthesizeConfig,
                        .spawnProcess]
              fsWrites := ws ++ ws2, spawned := true, killed := false
              finalConfig := cfg }
          | .ok r =>
            { result := .ok r
              trace := [.validate, .prepareOutputFile, .synthesizeConfig,
                        .spawnProcess, .materializeResult]
              fsWrites := ws ++ ws2, spawned := true, killed := false
              finalConfig := cfg }

/-- The stages in the order the source completes them on a fully
successful run. -/
def canonicalStages : List Stage :=
  [.validate, .prepareOutputFile, .synthesizeConfig, .spawnProcess,
   .materializeResult]

/-- Stage rank under the ordering the specification asserts, where the
eager creation of the output destination belongs to the process
invocation stage: validation first, configuration synthesis second, the
invocation stage (output-file preparation and spawn) third, result
materialization last. -/
def claimedStagePos : Stage → Nat
  | .validate => 0
  | .synthesizeConfig => 1
  | .prepareOutputFile => 2
  | .spawnProcess => 2
  | .materializeResult => 3

/-- An environment in which every effect succeeds: the process exits 0
after one second and the artifact holds the text hello. -/
def env0 : Env :=
  { outputUuid := "u1", configUuid := "c1"
    mkdirOutputOk := true, writeEmptyOk := true, accessOk := true
    mkdirConfigOk := true, writeConfigOk := true, rewriteConfigOk := true
    prepareErrMsg := "", configErrMsg := "", statErrMsg := ""
    proc := .finishes 1000 0 ""
    outputContent := some "hello" }

/-- Whether the five-minute timer fires for the given process behaviour:
the process never closes, or closes only after the timeout bound. -/
def timesOut (p : ProcOutcome) : Bool :=
  match p with
  | .spawnFails _ => false
  | .neverFinishes => true
  | .finishes timeMs _ _ => decide (repomixTimeoutMs < timeMs)

/-- The generated output destination spelled as one concatenation. -/
theorem outputFileFor_eq (u : String) :
    outputFileFor u = "/tmp/repomix-output/repomix-output-" ++ u ++ ".txt" := by
  unfold outputFileFor repomixOutputDir
  rw [show ("/tmp/repomix-output" ++ "/" : String) = "/tmp/repomix-output/"
    from rfl]
  rw [← String.append_assoc, ← String.append_assoc]
  rw [show ("/tmp/repomix-output/" ++ "repomix-output-" : String) =
    "/tmp/repomix-output/repomix-output-" from rfl]

/-- Every trace executeRepomix produces is an initial segment of the
canonical stage sequence. -/
theorem trace_take (url : String) (options : RepomixOptions) (env : Env) :
    ∃ n, (executeRepomix url options env).trace = canonicalStages.take n := by
  unfold executeRepomix
  split
  · exact ⟨0, rfl⟩
  split
  · exact ⟨1, rfl⟩
  split
  · exact ⟨2, rfl⟩
  split
  · exact ⟨4, rfl⟩
  split
  · exact ⟨4, rfl⟩
  · exact ⟨5, rfl⟩

/-- A successful run completes every stage. -/
theorem ok_trace (url : String) (options : RepomixOptions) (env : Env) :
    (executeRepomix url options env).result.isOk = true →
    (executeRepomix url options env).trace = canonicalStages := by
  unfold executeRepomix
  split
  · intro h; simp [Except.isOk, Except.toBool] at h
  split
  · intro h; simp [Except.isOk, Except.toBool] at h
  split
  · intro h; simp [Except.isOk, Except.toBool] at h
  split
  · intro h; simp [Except.isOk, Except.toBool] at h
  split
  · intro h; simp [Except.isOk, Except.toBool] at h
  · intro _; rfl

/-- Soundness half of the validator against the parser-normalised host
condition. -/
theorem valid_implies_normSpec (url : String) :
    isValidGitHubUrl url = true → specValidGitHubUrlNormalized url := by
  intro h
  unfold isValidGitHubUrl at h
  cases hp : parseURL url with
  | none => rw [hp] at h; simp at h
  | some p =>
    rw [hp] at h
    simp at h
    obtain ⟨hhost, hlen⟩ := h
    exact ⟨p, hp, hhost, by simpa using hlen⟩

/-- Completeness half of the validator against the parser-normalised
host condition. -/
theorem normSpec_implies_valid (url : String) :
    specValidGitHubUrlNormalized url → isValidGitHubUrl url = true := by
  rintro ⟨p, hp, hor, hl⟩
  unfold isValidGitHubUrl
  rw [hp]
  simp
  exact ⟨hor, by simpa using hl⟩

/-- C2 counterexample: the claimed unconditional case-insensitive host
condition is not equivalent to the validator.  The input
git://GitHub.com/acme/widgets parses as a URL whose host equals
github.com case-insensitively and has two path segments, yet the
validator returns false: git is not a special scheme, so the WHATWG
hostname of this URL is the case-preserved opaque host GitHub.com,
which the allow-list comparison rejects. -/
theorem claim_c2_counterexample :
    ¬ (isValidGitHubUrl "git://GitHub.com/acme/widgets" = true ↔
       specValidGitHubUrl "git://GitHub.com/acme/widgets") := by
  intro h
  have hs : specValidGitHubUrl "git://GitHub.com/acme/widgets" :=
    ⟨{ scheme := "git", hostRaw := "GitHub.com", pathname := "/acme/widgets" },
     by decide, by decide, by decide⟩
  exact absurd (h.mpr hs) (by decide)

/-- C2 amended: for every input string, the reference validator returns
true if and only if the string parses as a URL whose hostname - which
parsing lowercases for special-scheme URLs (http, https, ws, wss, ftp,
file) and preserves case-sensitively for non-special schemes such as
git: - equals exactly github.com or www.github.com, and whose path,
after dropping empty segments, has at least two segments; on malformed
input the parse yields none and the validator returns false (it is a
total pure Lean function, so it raises no exception and has no side
effects). -/
theorem claim_c2_amended_validator_iff (url : String) :
    isValidGitHubUrl url = true ↔ specValidGitHubUrlNormalized url :=
  ⟨valid_implies_normSpec url, normSpec_implies_valid url⟩

/-- C9: every string that parses as a URL with host github.com or
www.github.com and at least two non-empty path segments is accepted by
the validator, with no constraint whatsoever on the parsed scheme, so
non-HTTP(S) schemes such as ftp: or git: are accepted. -/
theorem claim_c9_scheme_irrelevant (url : String) (p : ParsedURL)
    (hp : parseURL url = some p)
    (hh : p.hostname = "github.com" ∨ p.hostname = "www.github.com")
    (hseg : 2 ≤ ((splitOnChar '/' p.pathname.data).filter
        (fun seg => seg.isEmpty = false)).length) :
    isValidGitHubUrl url = true := by
  apply normSpec_implies_valid url
  exact ⟨p, hp, hh, hseg⟩

/-- Witness for C9 at the concrete inputs ftp://github.com/acme/widgets
and git://github.com/acme/widgets. -/
theorem claim_c9_witness :
    isValidGitHubUrl "ftp://github.com/acme/widgets" = true ∧
    isValidGitHubUrl "git://github.com/acme/widgets" = true := by
  constructor
  · exact claim_c9_scheme_irrelevant _
      { scheme := "ftp", hostRaw := "github.com", pathname := "/acme/widgets" }
      (by decide) (by decide) (by decide)
  · exact claim_c9_scheme_irrelevant _
      { scheme := "git", hostRaw := "github.com", pathname := "/acme/widgets" }
      (by decide) (by decide) (by decide)


/-- C1: in every execution where the external process exits with code 0
within the timeout bound and the output artifact is non-empty,
executeRepomix resolves with an IngestionResult whose content equals the
artifact's full text and whose outputPath equals the generated output
destination /tmp/repomix-output/repomix-output-<uuid>.txt. -/
theorem claim_c1_success_materializes_artifact (url : String)
    (options : RepomixOptions) (env : Env)
    (timeMs : Nat) (stText : String) (content : String)
    (hvalid : isValidGitHubUrl url = true)
    (h1 : env.mkdirOutputOk = true) (h2 : env.writeEmptyOk = true)
    (h3 : env.accessOk = true) (h4 : env.mkdirConfigOk = true)
    (h5 : env.writeConfigOk = true) (h6 : env.rewriteConfigOk = true)
    (hp : env.proc = .finishes timeMs 0 stText)
    (ht : timeMs ≤ repomixTimeoutMs)
    (hc : env.outputContent = some content)
    (hne : content.length ≠ 0) :
    (executeRepomix url options env).result =
      .ok { outputPath := outputFileFor env.outputUuid, content := content } ∧
    outputFileFor env.outputUuid =
      "/tmp/repomix-output/repomix-output-" ++ env.outputUuid ++ ".txt" := by
  refine ⟨?_, outputFileFor_eq env.outputUuid⟩
  have hnl : ¬(repomixTimeoutMs < timeMs) := Nat.not_lt.mpr ht
  unfold executeRepomix prepareOutput synthesizePhase runProcess
    materializePhase
  cases hk : options.hasAnyKey <;>
    simp [hvalid, h1, h2, h3, h4, h5, h6, hp, hc, hk, hnl, hne]

/-- Witness for C1 at a concrete successful environment. -/
theorem claim_c1_witness :
    (executeRepomix "https://github.com/acme/widgets" emptyOptions
      env0).result =
      .ok { outputPath := outputFileFor env0.outputUuid, content := "hello" } ∧
    outputFileFor env0.outputUuid =
      "/tmp/repomix-output/repomix-output-" ++ env0.outputUuid ++ ".txt" :=
  claim_c1_success_materializes_artifact "https://github.com/acme/widgets"
    emptyOptions env0 1000 "" "hello" (by decide) rfl rfl rfl rfl rfl rfl rfl
    (by decide) rfl (by decide)

/-- C4: in every execution where the external process exits with code 0
but the output artifact has size zero, executeRepomix fails with the
EmptyResult-classified error instead of returning a successful
IngestionResult. -/
theorem claim_c4_empty_output_fails (url : String)
    (options : RepomixOptions) (env : Env)
    (timeMs : Nat) (stText : String) (content : String)
    (hvalid : isValidGitHubUrl url = true)
    (h1 : env.mkdirOutputOk = true) (h2 : env.writeEmptyOk = true)
    (h3 : env.accessOk = true) (h4 : env.mkdirConfigOk = true)
    (h5 : env.writeConfigOk = true) (h6 : env.rewriteConfigOk = true)
    (hp : env.proc = .finishes timeMs 0 stText)
    (ht : timeMs ≤ repomixTimeoutMs)
    (hc : env.outputContent = some content)
    (hz : content.length = 0) :
    (executeRepomix url options env).result = .error .emptyOutput ∧
    errorKind .emptyOutput = .emptyResult := by
  refine ⟨?_, rfl⟩
  have hnl : ¬(repomixTimeoutMs < timeMs) := Nat.not_lt.mpr ht
  unfold executeRepomix prepareOutput synthesizePhase runProcess
    materializePhase
  cases hk : options.hasAnyKey <;>
    simp [hvalid, h1, h2, h3, h4, h5, h6, hp, hc, hk, hnl, hz]

/-- Witness for C4 at a concrete environment with an empty artifact. -/
theorem claim_c4_witness :
    (executeRepomix "https://github.com/acme/widgets" emptyOptions
      { env0 with outputContent := some "" }).result =
        .error .emptyOutput ∧
    errorKind .emptyOutput = .emptyResult :=
  claim_c4_empty_output_fails "https://github.com/acme/widgets"
    emptyOptions { env0 with outputContent := some "" } 1000 "" ""
    (by decide) rfl rfl rfl rfl rfl rfl rfl (by decide) rfl (by decide)

/-- C10: when the process exits 0 but the output file is empty, the
error thrown inside the materialization step is re-wrapped by that
step's surrounding handler, surfacing with message exactly
"Output file issue: Repomix generated an empty output file", the same
"Output file issue: " prefix used when the output file is missing or
unreadable. -/
theorem claim_c10_empty_output_message (url : String)
    (options : RepomixOptions) (env : Env)
    (timeMs : Nat) (stText : String) (content : String)
    (hvalid : isValidGitHubUrl url = true)
    (h1 : env.mkdirOutputOk = true) (h2 : env.writeEmptyOk = true)
    (h3 : env.accessOk = true) (h4 : env.mkdirConfigOk = true)
    (h5 : env.writeConfigOk = true) (h6 : env.rewriteConfigOk = true)
    (hp : env.proc = .finishes timeMs 0 stText)
    (ht : timeMs ≤ repomixTimeoutMs)
    (hc : env.outputContent = some content)
    (hz : content.length = 0) :
    (executeRepomix url options env).result = .error .emptyOutput ∧
    RepoError.message .emptyOutput =
      "Output file issue: Repomix generated an empty output file" ∧
    (∀ m, RepoError.message (.outputMissing m) = "Output file issue: " ++ m) := by
  refine ⟨?_, rfl, fun m => rfl⟩
  have hnl : ¬(repomixTimeoutMs < timeMs) := Nat.not_lt.mpr ht
  unfold executeRepomix prepareOutput synthesizePhase runProcess
    materializePhase
  cases hk : options.hasAnyKey <;>
    simp [hvalid, h1, h2, h3, h4, h5, h6, hp, hc, hk, hnl, hz]

/-- Witness for C10 at a concrete environment with an empty artifact. -/
theorem claim_c10_witness :
    (executeRepomix "https://github.com/acme/widgets" emptyOptions
      { env0 with outputContent := some "" }).result =
        .error .emptyOutput ∧
    RepoError.message .emptyOutput =
      "Output file issue: Repomix generated an empty output file" ∧
    (∀ m, RepoError.message (.outputMissing m) = "Output file issue: " ++ m) :=
  claim_c10_empty_output_message "https://github.com/acme/widgets"
    emptyOptions { env0 with outputContent := some "" } 1000 "" ""
    (by decide) rfl rfl rfl rfl rfl rfl rfl (by decide) rfl (by decide)

/-- C5: whenever the external process does not complete within the fixed
bound of five minutes (300000 milliseconds measured from spawn), the
invocation kills the process and resolves to the ProcessTimeout failure,
which the caller-visible classification treats exactly like a non-zero
exit; even a never-terminating process yields this resolution rather
than a hang. -/
theorem claim_c5_timeout (url : String) (options : RepomixOptions)
    (env : Env)
    (hvalid : isValidGitHubUrl url = true)
    (h1 : env.mkdirOutputOk = true) (h2 : env.writeEmptyOk = true)
    (h3 : env.accessOk = true) (h4 : env.mkdirConfigOk = true)
    (h5 : env.writeConfigOk = true) (h6 : env.rewriteConfigOk = true)
    (htime : timesOut env.proc = true) :
    ((executeRepomix url options env).result = .error .processTimeout ∧
     (executeRepomix url options env).killed = true) ∧
    errorKind .processTimeout = ErrKind.processTimeout ∧
    (∀ c s, classify (.processExit c s) = classify .processTimeout) ∧
    repomixTimeoutMs = 5 * 60 * 1000 := by
  refine ⟨?_, rfl, fun c s => rfl, rfl⟩
  cases hpr : env.proc with
  | spawnFails m => rw [hpr] at htime; simp [timesOut] at htime
  | neverFinishes =>
    unfold executeRepomix prepareOutput synthesizePhase runProcess
    cases hk : options.hasAnyKey <;>
      simp [hvalid, h1, h2, h3, h4, h5, h6, hpr, hk]
  | finishes t c s =>
    rw [hpr] at htime
    simp [timesOut] at htime
    unfold executeRepomix prepareOutput synthesizePhase runProcess
    cases hk : options.hasAnyKey <;>
      simp [hvalid, h1, h2, h3, h4, h5, h6, hpr, hk, htime]

/-- Witness for C5 at a concrete never-terminating process. -/
theorem claim_c5_witness :
    ((executeRepomix "https://github.com/acme/widgets" emptyOptions
        { env0 with proc := .neverFinishes }).result =
          .error .processTimeout ∧
     (executeRepomix "https://github.com/acme/widgets" emptyOptions
        { env0 with proc := .neverFinishes }).killed = true) ∧
    errorKind .processTimeout = ErrKind.processTimeout ∧
    (∀ c s, classify (.processExit c s) = classify .processTimeout) ∧
    repomixTimeoutMs = 5 * 60 * 1000 :=
  claim_c5_timeout "https://github.com/acme/widgets" emptyOptions
    { env0 with proc := .neverFinishes }
    (by decide) rfl rfl rfl rfl rfl rfl rfl

/-- C6: for every reference string the validator rejects, executeRepomix
fails immediately with the invalid-URL error, classified as a
bad-request (request-validation) failure, with an empty stage trace, no
filesystem writes, and no spawned process. -/
theorem claim_c6_invalid_reference_no_effects (url : String)
    (options : RepomixOptions) (env : Env)
    (hinvalid : isValidGitHubUrl url = false) :
    (executeRepomix url options env).result = .error .invalidUrl ∧
    (executeRepomix url options env).fsWrites = [] ∧
    (executeRepomix url options env).trace = [] ∧
    (executeRepomix url options env).spawned = false ∧
    classify .invalidUrl = .badRequest ∧
    errorKind .invalidUrl = .invalidReference := by
  unfold executeRepomix
  simp [hinvalid, classify, errorKind]

/-- Witness for C6 at the concrete rejected reference
https://example.com/acme/widgets. -/
theorem claim_c6_witness :
    (executeRepomix "https://example.com/acme/widgets" emptyOptions
      env0).result = .error .invalidUrl ∧
    (executeRepomix "https://example.com/acme/widgets" emptyOptions
      env0).fsWrites = [] ∧
    (executeRepomix "https://example.com/acme/widgets" emptyOptions
      env0).trace = [] ∧
    (executeRepomix "https://example.com/acme/widgets" emptyOptions
      env0).spawned = false ∧
    classify .invalidUrl = .badRequest ∧
    errorKind .invalidUrl = .invalidReference :=
  claim_c6_invalid_reference_no_effects "https://example.com/acme/widgets"
    emptyOptions env0 (by decide)

/-- C7: for every caller option set, the synthesized configuration
document's compress, removeComments and removeEmptyLines fields equal
the caller-supplied booleans when provided and the default false when
omitted, and every other field keeps its fixed structural default. -/
theorem claim_c7_config_round_trip (options : RepomixOptions)
    (outputFile : String) :
    (applyOptions (createRepomixConfigDoc outputFile)
        options).output.compress = options.compress.getD false ∧
    (applyOptions (createRepomixConfigDoc outputFile)
        options).output.removeComments = options.removeComments.getD false ∧
    (applyOptions (createRepomixConfigDoc outputFile)
        options).output.removeEmptyLines =
      options.removeEmptyLines.getD false ∧
    (applyOptions (createRepomixConfigDoc outputFile)
        options).output.filePath = outputFile ∧
    (applyOptions (createRepomixConfigDoc outputFile)
        options).output.style = "plain" ∧
    (applyOptions (createRepomixConfigDoc outputFile)
        options).output.parsableStyle = false ∧
    (applyOptions (createRepomixConfigDoc outputFile)
        options).output.fileSummary = true ∧
    (applyOptions (createRepomixConfigDoc outputFile)
        options).output.directoryStructure = true ∧
    (applyOptions (createRepomixConfigDoc outputFile)
        options).output.showLineNumbers = true ∧
    (applyOptions (createRepomixConfigDoc outputFile)
        options).output.copyToClipboard = false ∧
    (applyOptions (createRepomixConfigDoc outputFile)
        options).output.includeEmptyDirectories = false ∧
    (applyOptions (createRepomixConfigDoc outputFile)
        options).includePatterns = ["**/*"] ∧
    (applyOptions (createRepomixConfigDoc outputFile)
        options).ignore.useGitignore = true ∧
    (applyOptions (createRepomixConfigDoc outputFile)
        options).ignore.useDefaultPatterns = true ∧
    (applyOptions (createRepomixConfigDoc outputFile)
        options).ignore.customPatterns = [] ∧
    (applyOptions (createRepomixConfigDoc outputFile)
        options).security.enableSecurityCheck = false := by
  obtain ⟨c, rc, re, inc⟩ := options
  cases c <;> cases rc <;> cases re <;> cases inc <;>
    simp [applyOptions, RepomixOptions.hasAnyKey, createRepomixConfigDoc]

/-- C3 evaluation: the include option that repoFilesController passes is
ignored by executeRepomix, so the configuration document read by the
external tool keeps the default inclusion filter of every file instead
of the caller-supplied path list. -/
theorem claim_c3_include_option_ignored :
    ((executeRepomix "https://github.com/acme/widgets"
        (repoFilesOptions "src/index.js,src/app.js") env0).finalConfig.map
      (fun c => c.includePatterns)) = some ["**/*"] ∧
    (repoFilesOptions "src/index.js,src/app.js").includePatterns =
      some "src/index.js,src/app.js" ∧
    (["src/index.js,src/app.js"] : List String) ≠ ["**/*"] := by
  refine ⟨by decide, rfl, by decide⟩

/-- C8 counterexample: it is not the case that every stage trace is
ordered by the specification's claimed stage ranks, under which the
orchestrator's eager creation of the output destination file may not
precede configuration synthesis; in a fully successful concrete run the
output destination is prepared before the configuration is written. -/
theorem claim_c8_counterexample :
    ¬ (∀ (url : String) (options : RepomixOptions) (env : Env),
        List.Pairwise (fun a b => claimedStagePos a ≤ claimedStagePos b)
          (executeRepomix url options env).trace) := by
  intro h
  have hx := h "https://github.com/acme/widgets" emptyOptions env0
  revert hx
  decide

/-- C8 amended: within one pipeline the completed stages always form an
initial segment of the sequence validate, prepare the output
destination, synthesize the configuration, spawn the process,
materialize the result - so each stage runs only after every earlier
stage succeeded, with the eager output-destination preparation occurring
after validation but before configuration synthesis - and a successful
run completes all five stages. -/
theorem claim_c8_amended_stage_order (url : String)
    (options : RepomixOptions) (env : Env) :
    (∃ n, (executeRepomix url options env).trace = canonicalStages.take n) ∧
    ((executeRepomix url options env).result.isOk = false ∨
     (executeRepomix url options env).trace = canonicalStages) := by
  refine ⟨trace_take url options env, ?_⟩
  cases hb : (executeRepomix url options env).result.isOk with
  | false => exact Or.inl rfl
  | true => exact Or.inr (ok_trace url options env hb)

end RepoIngest
